import Mathlib

/-!
Verification development for the video ingestion and retrieval pipeline
(handler_upload_video.go, handler_upload_thumbnail.go, and the signed-video
read path).  The Go source is shallowly embedded: pure computations become
Lean functions on `ℕ`/`ℤ`/`String`, external effects (auth, database,
ffmpeg/ffprobe, S3, the file system) are supplied as oracle values in an
environment record, and each handler becomes a function from that
environment to a result record listing the HTTP response, files created,
`os.Remove` calls, S3 `PutObject` calls and database writes, in order.
-/

namespace Tubely

/-! ## IEEE-754 binary32 arithmetic, exactly, in fixed point

`getVideoAspectRatio` computes `float32(width) / float32(height)` and
compares it with `float32` sums and differences of `16.0/9.0`, `9.0/16.0`
and `0.01`.  Go `float32` arithmetic is IEEE-754 binary32 with rounding to
nearest, ties to even.  Every binary32 value is an integer multiple of
`2 ^ (-149)` (the least subnormal), so we represent a float value `v`
exactly by the integer `v * 2 ^ 149` and implement each operation as a
correctly rounded map on these integers. -/

/-- Fuel-bounded base-2 floor logarithm; `fuel = 256` covers every natural
number arising here (all are far below `2 ^ 256`). -/
def natLog2Aux : ℕ → ℕ → ℕ
  | 0, _ => 0
  | fuel + 1, n => if 2 ≤ n then natLog2Aux fuel (n / 2) + 1 else 0

/-- `⌊log₂ n⌋` for `1 ≤ n < 2 ^ 256` (and `0` for `n = 0`). -/
def natLog2 (n : ℕ) : ℕ := natLog2Aux 256 n

/-- Is `2 ^ d ≤ a / b` (for naturals `a b ≥ 1` and an integer exponent)? -/
def pow2LeRat (a b : ℕ) (d : ℤ) : Bool :=
  if 0 ≤ d then decide (b * 2 ^ d.toNat ≤ a) else decide (b ≤ a * 2 ^ (-d).toNat)

/-- `⌊log₂ (a / b)⌋` for `a, b ≥ 1`. -/
def ratFloorLog2 (a b : ℕ) : ℤ :=
  let d : ℤ := (natLog2 a : ℤ) - (natLog2 b : ℤ)
  if pow2LeRat a b d then d else d - 1

/-- Round `num / den` (`den ≥ 1`) to the nearest natural, ties to even. -/
def roundNearestEven (num den : ℕ) : ℕ :=
  let q := num / den
  let r := num % den
  if 2 * r < den then q
  else if den < 2 * r then q + 1
  else if q % 2 = 0 then q else q + 1

/-- Round the positive rational `a / b` (`a, b ≥ 1`) to the nearest IEEE-754
binary32 value, ties to even, returning that value scaled by `2 ^ 149`.
Subnormal results are handled; the inputs arising in this file never
overflow the binary32 exponent range. -/
def roundFl (a b : ℕ) : ℕ :=
  let e := ratFloorLog2 a b
  let scale : ℤ := if e < -126 then 149 else 23 - e
  let n : ℕ :=
    if 0 ≤ scale then roundNearestEven (a * 2 ^ scale.toNat) b
    else roundNearestEven a (b * 2 ^ (-scale).toNat)
  n * 2 ^ (149 - scale).toNat

/-- The binary32 value nearest to the rational `a / b` (`b ≥ 1`), scaled by
`2 ^ 149`. -/
def flOfRat (a : ℤ) (b : ℕ) : ℤ :=
  if a = 0 then 0
  else if 0 < a then (roundFl a.toNat b : ℤ)
  else -(roundFl (-a).toNat b : ℤ)

/-- Go's `float32(n)` conversion of an integer, scaled by `2 ^ 149`. -/
def intToFl (n : ℤ) : ℤ := flOfRat n 1

/-- Correctly rounded binary32 addition on scaled representations. -/
def addFl (x y : ℤ) : ℤ := flOfRat (x + y) (2 ^ 149)

/-- Correctly rounded binary32 subtraction on scaled representations. -/
def subFl (x y : ℤ) : ℤ := flOfRat (x - y) (2 ^ 149)

/-- Correctly rounded binary32 division on scaled representations.  The
quotient of the two represented values is the quotient of their scaled
representations; only nonzero divisors occur in this file. -/
def divFl (x y : ℤ) : ℤ :=
  if 0 < y then flOfRat x y.toNat
  else if y < 0 then flOfRat (-x) (-y).toNat
  else 0

/-! ## `getVideoAspectRatio` (handler_upload_video.go)

The ffprobe invocation is an external effect; its outcome (process failure,
unparseable output, or a parsed list of streams, each with integer `width`
and `height` fields) is an oracle input.  The classification itself is the
source's `float32` computation. -/

/-- One entry of the ffprobe `streams` array: the two JSON fields the source
decodes (absent fields decode to `0` in Go). -/
structure FFStream where
  width : ℤ
  height : ℤ
deriving DecidableEq

/-- Outcome of running `ffprobe` on a file: the process fails, its output is
not valid JSON, or it yields a list of streams. -/
inductive FFProbeOutcome where
  | runError
  | badJson
  | streams (l : List FFStream)
deriving DecidableEq

/-- The error values `getVideoAspectRatio` can return, carrying the same
data as the corresponding `fmt.Errorf` messages. -/
inductive ProbeError where
  | runFailure
  | parseFailure
  | noStreams (filePath : String)
  | invalidDimensions (w h : ℤ)
deriving DecidableEq

/-- Go's `within(ratio, target, tolerance)` closure: `target - tolerance`
and `target + tolerance` are computed in `float32`; the comparisons are
exact. -/
def within (r target tolerance : ℤ) : Bool :=
  decide (subFl target tolerance ≤ r) && decide (r ≤ addFl target tolerance)

/-- `getVideoAspectRatio`: checks the stream list, takes the first stream,
rejects zero dimensions, and classifies `float32(w)/float32(h)` against
`16.0/9.0` and `9.0/16.0` with tolerance `0.01`, all in `float32`. -/
def getVideoAspectRatio (probe : FFProbeOutcome) (filePath : String) :
    Except ProbeError String :=
  match probe with
  | .runError => .error .runFailure
  | .badJson => .error .parseFailure
  | .streams l =>
    match l with
    | [] => .error (.noStreams filePath)
    | stream :: _ =>
      if stream.width = 0 ∨ stream.height = 0 then
        .error (.invalidDimensions stream.width stream.height)
      else
        let r := divFl (intToFl stream.width) (intToFl stream.height)
        if within r (flOfRat 16 9) (flOfRat 1 100) then .ok "16:9"
        else if within r (flOfRat 9 16) (flOfRat 1 100) then .ok "9:16"
        else .ok "other"

/-- The `switch aspectRatio` block of `handlerUploadVideo`: maps the probe
result to the key partition, defaulting to `"other"`. -/
def orientationFromAspect (aspect : String) : String :=
  if aspect = "16:9" then "landscape"
  else if aspect = "9:16" then "portrait"
  else "other"

instance {ε α : Type} [DecidableEq ε] [DecidableEq α] : DecidableEq (Except ε α) := fun
  | .ok a, .ok b => decidable_of_iff (a = b) (by simp)
  | .ok _, .error _ => isFalse (by simp)
  | .error _, .ok _ => isFalse (by simp)
  | .error a, .error b => decidable_of_iff (a = b) (by simp)

/-! ## The video record and the immutable configuration

`database.Video` is owned by the excluded metadata store; the source uses
its `ID`, `UserID`, `ThumbnailURL` and `VideoURL` fields.  Modelled from the
spec: the record "exposes at least {id, ownerId, referenceField (nullable
string)}"; the remaining fields stand for the rest of the record and are
only ever carried through unchanged. -/

structure Video where
  id : String
  createdAt : String
  updatedAt : String
  title : String
  description : String
  thumbnailURL : Option String
  videoURL : Option String
  userID : String
deriving DecidableEq

/-- The fields of `apiConfig` the embedded code reads: the target bucket
and the CloudFront distribution prefix. -/
structure apiConfig where
  s3Bucket : String
  s3CfDistribution : String
deriving DecidableEq

/-! ## Hex encoding of the random key material

`hex.EncodeToString` from Go's encoding/hex: each byte becomes two
lowercase hexadecimal digits, high nibble first. -/

/-- A single lowercase hexadecimal digit for a nibble `0 ≤ n < 16`. -/
def hexDigit (n : ℕ) : Char :=
  if n < 10 then Char.ofNat (48 + n) else Char.ofNat (87 + n)

/-- `hex.EncodeToString` on a byte list (each byte `< 256`). -/
def hexEncodeList : List ℕ → List Char
  | [] => []
  | b :: rest => hexDigit (b / 16) :: hexDigit (b % 16) :: hexEncodeList rest

/-- `hex.EncodeToString`, producing a `String`. -/
def hexEncodeToString (bytes : List ℕ) : String :=
  String.mk (hexEncodeList bytes)

/-- The derived storage key `fmt.Sprintf("%s/%s", aspectRatioPrefix,
hex.EncodeToString(fileKeyBytes))`. -/
def makeFileKey (orientation : String) (bytes : List ℕ) : String :=
  orientation ++ "/" ++ hexEncodeToString bytes

/-! ## The reference codec (read path, `dbVideoToSignedVideo`)

`strings.Split(url, ",")` on a non-empty separator: split at every
occurrence of the separator; a string without the separator yields the
one-element list holding it. -/

/-- `strings.Split(s, ",")` on the character list of `s`. -/
def splitOnComma : List Char → List (List Char)
  | [] => [[]]
  | c :: rest =>
    if c = ',' then [] :: splitOnComma rest
    else
      match splitOnComma rest with
      | [] => [[c]]
      | s :: ss => (c :: s) :: ss

/-- The decoding step of `dbVideoToSignedVideo`: split the stored URL on
commas; exactly two components decode to `(bucket, key)`, anything else is
not a reference. -/
def decodeVideoURL (url : String) : Option (String × String) :=
  match (splitOnComma url.data).map String.mk with
  | [bucket, key] => some (bucket, key)
  | _ => none

/-- What `dbVideoToSignedVideo` returns: the (possibly substituted) record,
the error if any, and the list of metadata-store writes it performed —
empty in every branch, because the function never calls the store. -/
structure ReadResult where
  video : Video
  err : Option String
  dbWrites : List Video
deriving DecidableEq

/-- `dbVideoToSignedVideo`: pass through a record with no URL; split the
URL on commas and pass through unless there are exactly two components;
otherwise presign `(bucket, key)` (an external effect, supplied as the
`signer` oracle, invoked with a 3-minute expiry in seconds) and substitute
the result, or return the record unchanged together with the wrapped error.
-/
def dbVideoToSignedVideo (signer : String → String → ℕ → Except String String)
    (video : Video) : ReadResult :=
  match video.videoURL with
  | none => ⟨video, none, []⟩
  | some url =>
    match (splitOnComma url.data).map String.mk with
    | [bucket, key] =>
      match signer bucket key (3 * 60) with
      | .error e =>
        ⟨video, some ("failed to generate presigned URL for video " ++ video.id ++ ": " ++ e), []⟩
      | .ok presignedUrl => ⟨{ video with videoURL := some presignedUrl }, none, []⟩
    | _ => ⟨video, none, []⟩

/-! ## The ingestion orchestrator (`handlerUploadVideo`)

Every external effect is an oracle field of `UploadEnv`, in the order the
handler performs them.  The result records the HTTP response, every file
created on disk, every `os.Remove` call (in deferred, last-in-first-out
order), every S3 `PutObject` call attempted, and every successful
`UpdateVideo` write. -/

/-- Outcome of the `ffmpeg` invocation in `processVideoForFastStart`.  On
failure the tool may already have created a partial output file. -/
inductive FFmpegOutcome where
  | success
  | failure (outputFileExists : Bool)
deriving DecidableEq

/-- `processVideoForFastStart`: the output path is the input path plus the
fixed `".processing"` suffix.  Returns the Go result (output path, or the
wrapped error) together with the files the tool left on disk. -/
def processVideoForFastStart (filepath : String) (outcome : FFmpegOutcome) :
    Except String String × List String :=
  let output := filepath ++ ".processing"
  match outcome with
  | .success => (.ok output, [output])
  | .failure fileExists =>
    (.error "failed to process video for fast start", if fileExists then [output] else [])

/-- Oracle outcomes for one run of `handlerUploadVideo`, in program order:
request parsing, auth, the metadata read, the multipart file, the staged
temporary file, ffmpeg, ffprobe, the random key bytes, and the S3 and
metadata writes. -/
structure UploadEnv where
  parseVideoIDOk : Bool
  tokenOk : Bool
  jwtOk : Bool
  userID : String
  getVideoOk : Bool
  video : Video
  formFileOk : Bool
  parseMediaTypeOk : Bool
  mediaType : String
  createTempOk : Bool
  tempName : String
  copyOk : Bool
  seekOk : Bool
  ffmpeg : FFmpegOutcome
  probe : FFProbeOutcome
  randBytes : List ℕ
  openProcessedOk : Bool
  putObjectOk : Bool
  updateVideoOk : Bool
deriving DecidableEq

/-- An HTTP response: `respondWithError` with its status and message, or
`respondWithJSON` of a video record. -/
inductive Response where
  | err (status : ℕ) (msg : String)
  | okJson (v : Video)
deriving DecidableEq

/-- Observable outcome of one `handlerUploadVideo` run. -/
structure RunResult where
  response : Response
  created : List String
  removed : List String
  puts : List (String × String × String)
  dbUpdates : List Video
deriving DecidableEq

/-- `handlerUploadVideo`, step by step.  Deferred `os.Remove` calls run in
last-in-first-out order on every return; the `defer os.Remove(tempFile.
Name())` is registered once the temporary file exists, and `defer
os.Remove(processedPath)` only once `processVideoForFastStart` has
succeeded. -/
def handlerUploadVideo (cfg : apiConfig) (env : UploadEnv) : RunResult :=
  if ¬ env.parseVideoIDOk then ⟨.err 400 "Invalid video ID", [], [], [], []⟩
  else if ¬ env.tokenOk then ⟨.err 401 "Couldn't find JWT", [], [], [], []⟩
  else if ¬ env.jwtOk then ⟨.err 401 "Couldn't validate JWT", [], [], [], []⟩
  else if ¬ env.getVideoOk then ⟨.err 500 "Couldn't get video metadata", [], [], [], []⟩
  else if env.video.userID ≠ env.userID then
    ⟨.err 401 "You are not the owner of this video", [], [], [], []⟩
  else if ¬ env.formFileOk then ⟨.err 400 "Couldn't get video file", [], [], [], []⟩
  else if ¬ env.parseMediaTypeOk then
    ⟨.err 400 "Couldn't parse video file media type", [], [], [], []⟩
  else if env.mediaType ≠ "video/mp4" then
    ⟨.err 400 "Invalid video file type, only mp4 is allowed", [], [], [], []⟩
  else if ¬ env.createTempOk then ⟨.err 500 "Couldn't create temporary file", [], [], [], []⟩
  else
    let tmp := env.tempName
    if ¬ env.copyOk then
      ⟨.err 500 "Couldn't copy video file to temporary file", [tmp], [tmp], [], []⟩
    else if ¬ env.seekOk then ⟨.err 500 "Could not reset file pointer", [tmp], [tmp], [], []⟩
    else
      match processVideoForFastStart tmp env.ffmpeg with
      | (.error _, ffFiles) =>
        ⟨.err 500 "Couldn't process video for fast start", tmp :: ffFiles, [tmp], [], []⟩
      | (.ok processedPath, ffFiles) =>
        let created := tmp :: ffFiles
        match getVideoAspectRatio env.probe processedPath with
        | .error _ =>
          ⟨.err 500 "Couldn't get video aspect ratio", created, [processedPath, tmp], [], []⟩
        | .ok aspect =>
          let fileKey := makeFileKey (orientationFromAspect aspect) env.randBytes
          if ¬ env.openProcessedOk then
            ⟨.err 500 "Couldn't open processed video file", created,
              [processedPath, tmp], [], []⟩
          else if ¬ env.putObjectOk then
            ⟨.err 500 "Couldn't upload video to S3", created, [processedPath, tmp],
              [(cfg.s3Bucket, fileKey, env.mediaType)], []⟩
          else
            let vidUrl := cfg.s3CfDistribution ++ "/" ++ fileKey
            let video2 := { env.video with videoURL := some vidUrl }
            if ¬ env.updateVideoOk then
              ⟨.err 500 "Couldn't update video metadata", created, [processedPath, tmp],
                [(cfg.s3Bucket, fileKey, env.mediaType)], []⟩
            else
              ⟨.okJson video2, created, [processedPath, tmp],
                [(cfg.s3Bucket, fileKey, env.mediaType)], [video2]⟩

/-! ## The thumbnail handler (`handlerUploadThumbnail`)

The multipart file is a sequential reader: `io.ReadAll` at the top of the
handler consumes it to EOF, and the later `io.Copy` into the created asset
file reads only what is left.  The asset-path helpers are not part of the
embedded source; their outputs are oracle fields. -/

/-- `io.ReadAll` on a sequential reader: returns everything remaining and
leaves the reader empty. -/
def readAll (remaining : List ℕ) : List ℕ × List ℕ := (remaining, [])

/-- Oracle outcomes for one `handlerUploadThumbnail` run, in program
order. -/
structure ThumbEnv where
  parseVideoIDOk : Bool
  tokenOk : Bool
  jwtOk : Bool
  userID : String
  formFileOk : Bool
  fileBytes : List ℕ
  readAllOk : Bool
  getVideoOk : Bool
  video : Video
  parseMediaTypeOk : Bool
  mediaType : String
  randBytes : List ℕ
  assetDiskPath : String
  assetURL : String
  createFileOk : Bool
  copyOk : Bool
  updateVideoOk : Bool
deriving DecidableEq

/-- Observable outcome of one `handlerUploadThumbnail` run: the response,
the contents written to each created disk file, and the successful
metadata writes. -/
structure ThumbResult where
  response : Response
  fileWrites : List (String × List ℕ)
  dbUpdates : List Video
deriving DecidableEq

/-- `handlerUploadThumbnail`, step by step.  `io.ReadAll(multiPartFile)`
runs before the media-type check and before `io.Copy(newFile,
multiPartFile)`, so the copy sees only the bytes the earlier read left
behind. -/
def handlerUploadThumbnail (env : ThumbEnv) : ThumbResult :=
  if ¬ env.parseVideoIDOk then ⟨.err 400 "Invalid ID", [], []⟩
  else if ¬ env.tokenOk then ⟨.err 401 "Couldn't find JWT", [], []⟩
  else if ¬ env.jwtOk then ⟨.err 401 "Couldn't validate JWT", [], []⟩
  else if ¬ env.formFileOk then ⟨.err 400 "Couldn't get thumbnail file", [], []⟩
  else
    let afterRead := readAll env.fileBytes
    if ¬ env.readAllOk then ⟨.err 500 "Couldn't read thumbnail file", [], []⟩
    else if ¬ env.getVideoOk then ⟨.err 500 "Couldn't get video metadata", [], []⟩
    else if env.video.userID ≠ env.userID then
      ⟨.err 401 "You are not allowed to upload a thumbnail for this video", [], []⟩
    else if ¬ env.parseMediaTypeOk then ⟨.err 400 "Invalid media type", [], []⟩
    else if env.mediaType ≠ "image/jpeg" ∧ env.mediaType ≠ "image/png" then
      ⟨.err 400 "Unsupported media type. Only JPEG and PNG are allowed", [], []⟩
    else if ¬ env.createFileOk then ⟨.err 500 "Unable to create file on server", [], []⟩
    else if ¬ env.copyOk then ⟨.err 500 "Error saving file", [(env.assetDiskPath, afterRead.2)], []⟩
    else
      let video2 := { env.video with thumbnailURL := some env.assetURL }
      if ¬ env.updateVideoOk then
        ⟨.err 500 "Couldn't update video metadata", [(env.assetDiskPath, afterRead.2)], []⟩
      else
        ⟨.okJson video2, [(env.assetDiskPath, afterRead.2)], [video2]⟩

/-! ## The stored-reference encoding (line 134 of handler_upload_video.go)

`fmt.Sprintf("%s/%s", cfg.s3CfDistribution, fileKeyHexString)`: the value
the orchestrator persists in the record's reference field. -/

/-- The stored reference the ingestion path writes: the CloudFront
distribution prefix and the storage key joined by a slash. -/
def encodeStoredVideoURL (s3CfDistribution fileKey : String) : String :=
  s3CfDistribution ++ "/" ++ fileKey

/-! ## Proof-side inverses for the hex encoding (not part of the source) -/

/-- Value of a lowercase hexadecimal digit character. -/
def hexDigitVal (c : Char) : ℕ :=
  if c.toNat ≤ 57 then c.toNat - 48 else c.toNat - 87

/-- Decode consecutive pairs of hex digits back into bytes. -/
def hexDecodePairs : List Char → List ℕ
  | c1 :: c2 :: rest => (hexDigitVal c1 * 16 + hexDigitVal c2) :: hexDecodePairs rest
  | _ => []

/-! ## Concrete fixtures used by witnesses and counterexamples -/

/-- A sample immutable configuration. -/
def cfgSample : apiConfig := ⟨"tubely-bucket", "https://cdn.example.com"⟩

/-- A sample video record owned by `"user-1"`, with no video uploaded yet. -/
def videoSample : Video :=
  ⟨"vid-1", "2024-01-01", "2024-01-02", "a title", "a description", none, none, "user-1"⟩

/-- An ingestion environment in which every external step succeeds and the
probe reports a 1920x1080 stream. -/
def envHappy : UploadEnv :=
  { parseVideoIDOk := true, tokenOk := true, jwtOk := true, userID := "user-1",
    getVideoOk := true, video := videoSample, formFileOk := true,
    parseMediaTypeOk := true, mediaType := "video/mp4", createTempOk := true,
    tempName := "/tmp/tubely-upload.mp4", copyOk := true, seekOk := true,
    ffmpeg := .success, probe := .streams [⟨1920, 1080⟩],
    randBytes := List.replicate 32 0, openProcessedOk := true,
    putObjectOk := true, updateVideoOk := true }

/-- `envHappy`, except that ffmpeg fails after creating a partial output
file. -/
def envFFmpegFail : UploadEnv := { envHappy with ffmpeg := .failure true }

/-- `envHappy`, except that ffprobe reports zero streams. -/
def envNoStreams : UploadEnv := { envHappy with probe := .streams [] }

/-- The reference the happy-path run persists. -/
def urlHappy : String :=
  encodeStoredVideoURL cfgSample.s3CfDistribution
    (makeFileKey "landscape" (List.replicate 32 0))

/-- The record the happy-path run returns and persists. -/
def videoHappyUpdated : Video := { videoSample with videoURL := some urlHappy }

/-- A presigner that always succeeds with a fixed URL. -/
def signerOk : String → String → ℕ → Except String String := fun _ _ _ => .ok "SIGNED-URL"

/-- A record whose stored reference splits into two components, the first
of which is empty. -/
def videoEmptyBucket : Video := { videoSample with videoURL := some ",x" }

/-- A record holding a current-format (comma-joined) reference. -/
def videoBK : Video := { videoSample with videoURL := some "b,k" }

/-- A record holding a comma-free (CDN-form) reference. -/
def videoNoComma : Video := { videoSample with videoURL := some "b/k" }

/-- A thumbnail-upload environment in which every external step succeeds
and the uploaded file holds three bytes. -/
def thumbEnvHappy : ThumbEnv :=
  { parseVideoIDOk := true, tokenOk := true, jwtOk := true, userID := "user-1",
    formFileOk := true, fileBytes := [1, 2, 3], readAllOk := true,
    getVideoOk := true, video := videoSample, parseMediaTypeOk := true,
    mediaType := "image/png", randBytes := List.replicate 32 7,
    assetDiskPath := "/assets/a.png", assetURL := "http://localhost:8091/assets/a.png",
    createFileOk := true, copyOk := true, updateVideoOk := true }

/-! ## Helper lemmas and the claims -/

set_option maxRecDepth 1000000

/-! ## Helper lemmas -/

/-- Splitting a comma-free character list yields the one-element list. -/
theorem splitOnComma_of_not_mem (l : List Char) (h : ',' ∉ l) : splitOnComma l = [l] := by
  induction l with
  | nil => rfl
  | cons c rest ih =>
    have hc : ¬ c = ',' := fun hc => h (hc ▸ List.mem_cons_self c rest)
    have hr : ',' ∉ rest := fun hr => h (List.mem_cons_of_mem c hr)
    simp [splitOnComma, hc, ih hr]

/-- Splitting at the first comma when the prefix part is comma-free. -/
theorem splitOnComma_append (b k : List Char) (hb : ',' ∉ b) :
    splitOnComma (b ++ ',' :: k) = b :: splitOnComma k := by
  induction b with
  | nil => simp [splitOnComma]
  | cons c rest ih =>
    have hc : ¬ c = ',' := fun hc => hb (hc ▸ List.mem_cons_self c rest)
    have hr : ',' ∉ rest := fun hr => hb (List.mem_cons_of_mem c hr)
    simp [splitOnComma, hc, ih hr]

/-- Rebuilding a string from its character data is the identity. -/
theorem string_mk_data (s : String) : String.mk s.data = s := rfl

/-- C2 (amended): the ingestion path joins the distribution prefix and the
key with a slash, not the bucket and the key with a comma, so for comma-free
inputs the encode-then-decode round trip yields `none` (not-a-reference)
rather than the original pair; the decoder does recover `(b, k)` from the
comma-joined string `b ++ "," ++ k`. -/
theorem c2_decode_behavior (b k : String) (hb : ',' ∉ b.data) (hk : ',' ∉ k.data) :
    decodeVideoURL (encodeStoredVideoURL b k) = none ∧
    decodeVideoURL (b ++ "," ++ k) = some (b, k) := by
  constructor
  · have hdata : (encodeStoredVideoURL b k).data = b.data ++ '/' :: k.data := by
      simp [encodeStoredVideoURL, String.data_append]
    have hmem : ',' ∉ (encodeStoredVideoURL b k).data := by
      rw [hdata]
      intro hm
      rcases List.mem_append.mp hm with h1 | h2
      · exact hb h1
      · rcases List.mem_cons.mp h2 with h3 | h4
        · exact absurd h3 (by decide)
        · exact hk h4
    rw [decodeVideoURL, splitOnComma_of_not_mem _ hmem]
    rfl
  · have hdata : (b ++ "," ++ k).data = b.data ++ ',' :: k.data := by
      simp [String.data_append]
    rw [decodeVideoURL, hdata, splitOnComma_append _ _ hb, splitOnComma_of_not_mem _ hk]
    simp [string_mk_data]

/-- C2 (counterexample): encoding the pair with bucket `"b"` and key `"k"`
as the ingestion path does and then decoding as the read path does yields
`none`, not `some ("b", "k")` — the ingestion path writes `"b/k"`. -/
theorem c2_roundtrip_fails :
    decodeVideoURL (encodeStoredVideoURL "b" "k") = none ∧
    encodeStoredVideoURL "b" "k" = "b/k" := by decide

/-- C2 witness: the amended theorem at concrete comma-free inputs. -/
theorem c2_decode_behavior_witness :
    (',' ∉ ("dist" : String).data) ∧ (',' ∉ ("landscape/aa" : String).data) ∧
    (decodeVideoURL (encodeStoredVideoURL "dist" "landscape/aa") = none ∧
      decodeVideoURL ("dist" ++ "," ++ "landscape/aa") = some ("dist", "landscape/aa")) :=
  ⟨by decide, by decide, c2_decode_behavior "dist" "landscape/aa" (by decide) (by decide)⟩

/-- C3 (amended): the read path passes a record through unchanged with no
error exactly when its reference field is absent or does not split into
exactly two comma-separated components; component non-emptiness is not
checked. -/
theorem c3_passthrough_on_bad_split (signer : String → String → ℕ → Except String String)
    (video : Video)
    (h : video.videoURL = none ∨
      ∃ url, video.videoURL = some url ∧ (splitOnComma url.data).length ≠ 2) :
    dbVideoToSignedVideo signer video = ⟨video, none, []⟩ := by
  rcases h with h | ⟨url, hurl, hlen⟩
  · simp [dbVideoToSignedVideo, h]
  · rcases hs : splitOnComma url.data with _ | ⟨a, _ | ⟨b, _ | ⟨c, rest⟩⟩⟩
    · simp [dbVideoToSignedVideo, hurl, hs]
    · simp [dbVideoToSignedVideo, hurl, hs]
    · exact absurd (by rw [hs]; rfl) hlen
    · simp [dbVideoToSignedVideo, hurl, hs]

/-- C3 (counterexample): a stored reference `",x"` splits into two
components of which the first is empty, so the claim requires passthrough,
but the read path decodes it and substitutes a signed URL: the returned
record differs from the input. -/
theorem c3_empty_component_not_passed_through :
    (dbVideoToSignedVideo signerOk videoEmptyBucket).video ≠ videoEmptyBucket ∧
    videoEmptyBucket.videoURL = some ",x" ∧
    (splitOnComma (",x" : String).data).map String.mk = ["", "x"] ∧
    (dbVideoToSignedVideo signerOk videoEmptyBucket).err = none := by decide

/-- C3 witness: the amended theorem at a record with a comma-free URL. -/
theorem c3_passthrough_on_bad_split_witness :
    (videoNoComma.videoURL = some "b/k" ∧ (splitOnComma ("b/k" : String).data).length ≠ 2) ∧
    dbVideoToSignedVideo signerOk videoNoComma = ⟨videoNoComma, none, []⟩ :=
  ⟨⟨by decide, by decide⟩,
    c3_passthrough_on_bad_split signerOk videoNoComma (Or.inr ⟨"b/k", by decide, by decide⟩)⟩

/-- C8: on the read path, when the stored URL decodes to a bucket and a
key, a successful signing replaces only the reference field and every other
field is carried over; a signing failure returns the record fully
unchanged together with the wrapped error; in both cases the function
performs no metadata-store write. -/
theorem c8_read_path_frame (signer : String → String → ℕ → Except String String)
    (video : Video) (url bucket key : String)
    (hurl : video.videoURL = some url)
    (hsplit : (splitOnComma url.data).map String.mk = [bucket, key]) :
    (∀ su, signer bucket key (3 * 60) = .ok su →
      dbVideoToSignedVideo signer video = ⟨{ video with videoURL := some su }, none, []⟩) ∧
    (∀ e, signer bucket key (3 * 60) = .error e →
      dbVideoToSignedVideo signer video =
        ⟨video, some ("failed to generate presigned URL for video " ++ video.id ++ ": " ++ e),
          []⟩) := by
  constructor
  · intro su hsu
    simp [dbVideoToSignedVideo, hurl, hsplit, hsu]
  · intro e he
    simp [dbVideoToSignedVideo, hurl, hsplit, he]

/-- C8 witness: the frame theorem at a concrete record and signer. -/
theorem c8_read_path_frame_witness :
    (videoBK.videoURL = some "b,k" ∧
      (splitOnComma ("b,k" : String).data).map String.mk = ["b", "k"]) ∧
    dbVideoToSignedVideo signerOk videoBK =
      ⟨{ videoBK with videoURL := some "SIGNED-URL" }, none, []⟩ :=
  ⟨⟨by decide, by decide⟩,
    (c8_read_path_frame signerOk videoBK "b,k" "b" "k" (by decide) (by decide)).1
      "SIGNED-URL" (by decide)⟩

/-- C9: geometry is taken from the first probed stream only — when the
first stream has zero width or height, `getVideoAspectRatio` fails with the
invalid-dimensions error regardless of any later streams. -/
theorem c9_first_stream_only (s : FFStream) (rest : List FFStream) (path : String)
    (h : s.width = 0 ∨ s.height = 0) :
    getVideoAspectRatio (.streams (s :: rest)) path =
      .error (.invalidDimensions s.width s.height) := by
  simp [getVideoAspectRatio, h]

/-- C9 witness: a zero-width first stream followed by a valid stream. -/
theorem c9_first_stream_only_witness :
    ((0 : ℤ) = 0 ∨ (500 : ℤ) = 0) ∧
    getVideoAspectRatio (.streams [⟨0, 500⟩, ⟨1920, 1080⟩]) "sample.mp4" =
      .error (.invalidDimensions 0 500) :=
  ⟨Or.inl rfl, c9_first_stream_only ⟨0, 500⟩ [⟨1920, 1080⟩] "sample.mp4" (Or.inl rfl)⟩

/-- Hex encoding doubles the length. -/
theorem hexEncodeList_length (l : List ℕ) : (hexEncodeList l).length = 2 * l.length := by
  induction l with
  | nil => rfl
  | cons b rest ih =>
    simp only [hexEncodeList, List.length_cons, ih]
    omega

/-- Decoding inverts `hexDigit` on nibbles. -/
theorem hexDigitVal_hexDigit (n : ℕ) (h : n < 16) : hexDigitVal (hexDigit n) = n := by
  revert n h
  decide

/-- `hexDigit` only emits lowercase hexadecimal characters. -/
theorem hexDigit_mem_alphabet (n : ℕ) (h : n < 16) :
    hexDigit n ∈ ("0123456789abcdef" : String).data := by
  revert n h
  decide

/-- Every character of a hex encoding is a lowercase hex digit. -/
theorem hexEncodeList_mem_alphabet (l : List ℕ) (hl : ∀ b ∈ l, b < 256) :
    ∀ c ∈ hexEncodeList l, c ∈ ("0123456789abcdef" : String).data := by
  induction l with
  | nil => intro c hc; cases hc
  | cons b rest ih =>
    intro c hc
    have hb : b < 256 := hl b (List.mem_cons_self b rest)
    rcases List.mem_cons.mp hc with h | h
    · exact h ▸ hexDigit_mem_alphabet _ (Nat.div_lt_of_lt_mul (by omega))
    · rcases List.mem_cons.mp h with h2 | h2
      · exact h2 ▸ hexDigit_mem_alphabet _ (Nat.mod_lt b (by omega))
      · exact ih (fun x hx => hl x (List.mem_cons_of_mem b hx)) c h2

/-- Pairwise decoding inverts the hex encoding of byte lists. -/
theorem hexDecodePairs_hexEncodeList (l : List ℕ) (h : ∀ b ∈ l, b < 256) :
    hexDecodePairs (hexEncodeList l) = l := by
  induction l with
  | nil => rfl
  | cons b rest ih =>
    have hb : b < 256 := h b (List.mem_cons_self b rest)
    have hdiv : b / 16 < 16 := Nat.div_lt_of_lt_mul (by omega)
    have hmod : b % 16 < 16 := Nat.mod_lt b (by omega)
    have hrest : ∀ x ∈ rest, x < 256 := fun x hx => h x (List.mem_cons_of_mem b hx)
    simp only [hexEncodeList, hexDecodePairs, hexDigitVal_hexDigit _ hdiv,
      hexDigitVal_hexDigit _ hmod, ih hrest, List.cons.injEq, and_true]
    omega

/-- Hex encoding is injective on byte lists. -/
theorem hexEncodeList_inj (l1 l2 : List ℕ) (h1 : ∀ b ∈ l1, b < 256) (h2 : ∀ b ∈ l2, b < 256)
    (he : hexEncodeList l1 = hexEncodeList l2) : l1 = l2 := by
  have hd := hexDecodePairs_hexEncodeList l1 h1
  rw [he, hexDecodePairs_hexEncodeList l2 h2] at hd
  exact hd.symm

/-- The storage key is the orientation, a slash, and the hex identifier. -/
theorem makeFileKey_data (o : String) (bytes : List ℕ) :
    (makeFileKey o bytes).data = o.data ++ '/' :: hexEncodeList bytes := by
  show (o ++ "/" ++ hexEncodeToString bytes).data = _
  rw [String.data_append, String.data_append, List.append_assoc]
  rfl

/-- C7: the storage key is the orientation prefix, a slash, and the
lowercase hex encoding of the 32 random bytes (64 hex characters), and any
two key derivations whose random bytes differ produce different keys, even
across orientations — in particular two ingestions with identical geometry
(same prefix) and different bytes. -/
theorem c7_key_shape_and_uniqueness (o1 o2 : String) (b1 b2 : List ℕ)
    (ho1 : o1 ∈ ["landscape", "portrait", "other"])
    (ho2 : o2 ∈ ["landscape", "portrait", "other"])
    (hl1 : b1.length = 32) (hl2 : b2.length = 32)
    (hb1 : ∀ b ∈ b1, b < 256) (hb2 : ∀ b ∈ b2, b < 256)
    (hne : b1 ≠ b2) :
    (makeFileKey o1 b1).data = o1.data ++ '/' :: hexEncodeList b1 ∧
    (hexEncodeToString b1).length = 64 ∧
    (∀ c ∈ (hexEncodeToString b1).data, c ∈ ("0123456789abcdef" : String).data) ∧
    makeFileKey o1 b1 ≠ makeFileKey o2 b2 := by
  have hlen1 : (hexEncodeList b1).length = 64 := by rw [hexEncodeList_length, hl1]
  have hlen2 : (hexEncodeList b2).length = 64 := by rw [hexEncodeList_length, hl2]
  refine ⟨makeFileKey_data o1 b1, ?_, ?_, ?_⟩
  · show (String.mk (hexEncodeList b1)).length = 64
    rw [String.length_mk, hlen1]
  · intro c hc
    exact hexEncodeList_mem_alphabet b1 hb1 c hc
  · intro hkey
    have hdata : o1.data ++ '/' :: hexEncodeList b1 = o2.data ++ '/' :: hexEncodeList b2 := by
      rw [← makeFileKey_data, ← makeFileKey_data, hkey]
    have hplen : o1.data.length = o2.data.length := by
      have := congrArg List.length hdata
      simp only [List.length_append, List.length_cons, hlen1, hlen2] at this
      omega
    have hsplit := List.append_inj hdata hplen
    have htail : '/' :: hexEncodeList b1 = '/' :: hexEncodeList b2 := hsplit.2
    have henc : hexEncodeList b1 = hexEncodeList b2 := by
      injection htail
    exact hne (hexEncodeList_inj b1 b2 hb1 hb2 henc)

/-- C7 witness: two 32-byte draws differing in the last byte under the
same `"landscape"` prefix give different keys. -/
theorem c7_key_shape_and_uniqueness_witness :
    (("landscape" : String) ∈ ["landscape", "portrait", "other"] ∧
      (List.replicate 32 0).length = 32 ∧
      (List.replicate 31 0 ++ [1]).length = 32 ∧
      List.replicate 32 0 ≠ List.replicate 31 0 ++ [(1 : ℕ)]) ∧
    makeFileKey "landscape" (List.replicate 32 0) ≠
      makeFileKey "landscape" (List.replicate 31 0 ++ [1]) :=
  ⟨⟨by decide, by decide, by decide, by decide⟩,
    (c7_key_shape_and_uniqueness "landscape" "landscape"
      (List.replicate 32 0) (List.replicate 31 0 ++ [1])
      (by decide) (by decide) (by decide) (by decide)
      (by decide) (by decide) (by decide)).2.2.2⟩

/-- C4 (counterexample): classification runs in `float32`, so it can
disagree with the claim's real-arithmetic tolerance test at the band edges:
the geometry 536353x300011 satisfies `|w/h - 16/9| > 0.01` and
`|w/h - 9/16| > 0.01`, so the claim requires `"other"`, but the code
classifies it as 16:9 (landscape). -/
theorem c4_float_boundary_counterexample :
    getVideoAspectRatio (.streams [⟨536353, 300011⟩]) "sample.mp4" = .ok "16:9" ∧
    orientationFromAspect "16:9" = "landscape" ∧
    ¬ |(536353 : ℚ) / 300011 - 16 / 9| ≤ 1 / 100 ∧
    ¬ |(536353 : ℚ) / 300011 - 9 / 16| ≤ 1 / 100 := by
  refine ⟨by decide, by decide, ?_, ?_⟩
  · rw [abs_le]
    push_neg
    intro h
    norm_num at h ⊢
  · rw [abs_le]
    push_neg
    intro h
    norm_num at h ⊢

/-- C4 (amended): under the code's `float32` arithmetic the concrete
scenarios hold: 1920x1080 is landscape, 1080x1920 is portrait, 1000x1000 is
other, and 16099x9000 — whose ratio is exactly `16/9 + 0.011` — is other. -/
theorem c4_orientation_scenarios :
    (getVideoAspectRatio (.streams [⟨1920, 1080⟩]) "sample.mp4").map orientationFromAspect
      = .ok "landscape" ∧
    (getVideoAspectRatio (.streams [⟨1080, 1920⟩]) "sample.mp4").map orientationFromAspect
      = .ok "portrait" ∧
    (getVideoAspectRatio (.streams [⟨1000, 1000⟩]) "sample.mp4").map orientationFromAspect
      = .ok "other" ∧
    (getVideoAspectRatio (.streams [⟨16099, 9000⟩]) "sample.mp4").map orientationFromAspect
      = .ok "other" ∧
    (16099 : ℚ) / 9000 = 16 / 9 + 11 / 1000 := by
  refine ⟨by decide, by decide, by decide, by decide, by norm_num⟩

/-- C6: when every step before probing succeeds and the probe reports
zero streams, the run fails with the aspect-ratio error (whose underlying
probe error is the no-streams error), attempts no S3 upload, and performs
no metadata write. -/
theorem c6_no_streams_aborts (cfg : apiConfig) (env : UploadEnv)
    (h1 : env.parseVideoIDOk = true) (h2 : env.tokenOk = true) (h3 : env.jwtOk = true)
    (h4 : env.getVideoOk = true) (h5 : env.video.userID = env.userID)
    (h6 : env.formFileOk = true) (h7 : env.parseMediaTypeOk = true)
    (h8 : env.mediaType = "video/mp4") (h9 : env.createTempOk = true)
    (h10 : env.copyOk = true) (h11 : env.seekOk = true) (h12 : env.ffmpeg = .success)
    (h13 : env.probe = .streams []) :
    (handlerUploadVideo cfg env).response = .err 500 "Couldn't get video aspect ratio" ∧
    getVideoAspectRatio env.probe (env.tempName ++ ".processing") =
      .error (.noStreams (env.tempName ++ ".processing")) ∧
    (handlerUploadVideo cfg env).puts = [] ∧
    (handlerUploadVideo cfg env).dbUpdates = [] := by
  refine ⟨?_, ?_, ?_, ?_⟩ <;>
    simp [handlerUploadVideo, processVideoForFastStart, getVideoAspectRatio,
      h1, h2, h3, h4, h5, h6, h7, h8, h9, h10, h11, h12, h13]

/-- C6 witness: the zero-streams environment. -/
theorem c6_no_streams_aborts_witness :
    (envNoStreams.probe = .streams [] ∧ envNoStreams.ffmpeg = .success) ∧
    ((handlerUploadVideo cfgSample envNoStreams).response =
        .err 500 "Couldn't get video aspect ratio" ∧
      getVideoAspectRatio envNoStreams.probe (envNoStreams.tempName ++ ".processing") =
        .error (.noStreams (envNoStreams.tempName ++ ".processing")) ∧
      (handlerUploadVideo cfgSample envNoStreams).puts = [] ∧
      (handlerUploadVideo cfgSample envNoStreams).dbUpdates = []) :=
  ⟨⟨by decide, by decide⟩,
    c6_no_streams_aborts cfgSample envNoStreams (by decide) (by decide) (by decide)
      (by decide) (by decide) (by decide) (by decide) (by decide) (by decide)
      (by decide) (by decide) (by decide) (by decide)⟩

/-- C10: for every thumbnail upload that completes successfully, the file
created on disk receives zero bytes — `io.ReadAll` has already consumed the
multipart stream before `io.Copy` runs — while the record's thumbnail URL
is still updated to the new asset URL. -/
theorem c10_thumbnail_empty_file (env : ThumbEnv)
    (h1 : env.parseVideoIDOk = true) (h2 : env.tokenOk = true) (h3 : env.jwtOk = true)
    (h4 : env.formFileOk = true) (h5 : env.readAllOk = true) (h6 : env.getVideoOk = true)
    (h7 : env.video.userID = env.userID) (h8 : env.parseMediaTypeOk = true)
    (h9 : env.mediaType = "image/jpeg" ∨ env.mediaType = "image/png")
    (h10 : env.createFileOk = true) (h11 : env.copyOk = true)
    (h12 : env.updateVideoOk = true) :
    (handlerUploadThumbnail env).fileWrites = [(env.assetDiskPath, [])] ∧
    (handlerUploadThumbnail env).dbUpdates =
      [{ env.video with thumbnailURL := some env.assetURL }] ∧
    (handlerUploadThumbnail env).response =
      .okJson { env.video with thumbnailURL := some env.assetURL } := by
  have h9' : ¬ (env.mediaType ≠ "image/jpeg" ∧ env.mediaType ≠ "image/png") := by
    rcases h9 with h | h <;> simp [h]
  refine ⟨?_, ?_, ?_⟩ <;>
    simp [handlerUploadThumbnail, readAll, h1, h2, h3, h4, h5, h6, h7, h8, h9', h10, h11, h12]

/-- C10 witness: a successful three-byte thumbnail upload. -/
theorem c10_thumbnail_empty_file_witness :
    (thumbEnvHappy.fileBytes = [1, 2, 3] ∧ thumbEnvHappy.mediaType = "image/png") ∧
    ((handlerUploadThumbnail thumbEnvHappy).fileWrites = [(thumbEnvHappy.assetDiskPath, [])] ∧
      (handlerUploadThumbnail thumbEnvHappy).dbUpdates =
        [{ thumbEnvHappy.video with thumbnailURL := some thumbEnvHappy.assetURL }] ∧
      (handlerUploadThumbnail thumbEnvHappy).response =
        .okJson { thumbEnvHappy.video with thumbnailURL := some thumbEnvHappy.assetURL }) :=
  ⟨⟨by decide, by decide⟩,
    c10_thumbnail_empty_file thumbEnvHappy (by decide) (by decide) (by decide) (by decide)
      (by decide) (by decide) (by decide) (by decide) (Or.inr (by decide)) (by decide)
      (by decide) (by decide)⟩

/-- C1 (amended): for every successful ingestion, the value written to
the record's reference field is exactly the CloudFront distribution prefix
and the derived storage key joined by a single slash — not the bucket and
key joined by a comma. -/
theorem c1_reference_is_distribution_slash_key (cfg : apiConfig) (env : UploadEnv)
    (aspect : String)
    (h1 : env.parseVideoIDOk = true) (h2 : env.tokenOk = true) (h3 : env.jwtOk = true)
    (h4 : env.getVideoOk = true) (h5 : env.video.userID = env.userID)
    (h6 : env.formFileOk = true) (h7 : env.parseMediaTypeOk = true)
    (h8 : env.mediaType = "video/mp4") (h9 : env.createTempOk = true)
    (h10 : env.copyOk = true) (h11 : env.seekOk = true) (h12 : env.ffmpeg = .success)
    (h13 : getVideoAspectRatio env.probe (env.tempName ++ ".processing") = .ok aspect)
    (h14 : env.openProcessedOk = true) (h15 : env.putObjectOk = true)
    (h16 : env.updateVideoOk = true) :
    (handlerUploadVideo cfg env).response =
      .okJson { env.video with videoURL := some (encodeStoredVideoURL cfg.s3CfDistribution
        (makeFileKey (orientationFromAspect aspect) env.randBytes)) } ∧
    (handlerUploadVideo cfg env).dbUpdates =
      [{ env.video with videoURL := some (encodeStoredVideoURL cfg.s3CfDistribution
        (makeFileKey (orientationFromAspect aspect) env.randBytes)) }] := by
  constructor <;>
    simp [handlerUploadVideo, processVideoForFastStart, encodeStoredVideoURL,
      h1, h2, h3, h4, h5, h6, h7, h8, h9, h10, h11, h12, h13, h14, h15, h16]

/-- C1 witness: the all-success environment with a 1920x1080 stream. -/
theorem c1_reference_is_distribution_slash_key_witness :
    (getVideoAspectRatio envHappy.probe (envHappy.tempName ++ ".processing") = .ok "16:9" ∧
      envHappy.mediaType = "video/mp4") ∧
    ((handlerUploadVideo cfgSample envHappy).response = .okJson videoHappyUpdated ∧
      (handlerUploadVideo cfgSample envHappy).dbUpdates = [videoHappyUpdated]) :=
  ⟨⟨by decide, by decide⟩, by
    have h := c1_reference_is_distribution_slash_key cfgSample envHappy "16:9"
      (by decide) (by decide) (by decide) (by decide) (by decide) (by decide) (by decide)
      (by decide) (by decide) (by decide) (by decide) (by decide) (by decide) (by decide)
      (by decide) (by decide)
    exact h⟩

/-- C1 (counterexample): in a concrete all-success run the persisted
reference is the distribution prefix, a slash and the key; it is not the
bucket, a comma and the key, and it contains no comma at all. -/
theorem c1_reference_not_bucket_comma_key :
    (handlerUploadVideo cfgSample envHappy).dbUpdates.map Video.videoURL = [some urlHappy] ∧
    urlHappy = "https://cdn.example.com/landscape/" ++ hexEncodeToString (List.replicate 32 0) ∧
    urlHappy ≠ cfgSample.s3Bucket ++ "," ++ makeFileKey "landscape" (List.replicate 32 0) ∧
    ',' ∉ urlHappy.data := by
  refine ⟨by decide, by decide, by decide, by decide⟩

/-- A path differs from itself with the processing suffix added. -/
theorem string_self_ne_append_processing (s : String) : s ≠ s ++ ".processing" := by
  intro h
  have hl := congrArg String.length h
  rw [String.length_append] at hl
  have : (".processing" : String).length = 11 := by decide
  omega

/-- Exhaustive file accounting for `handlerUploadVideo`: on every path
the run creates and removes nothing, creates and removes only the staged
temporary file, additionally leaves the transcoder's partial output behind
(ffmpeg failed with a partial file), or creates and removes both the staged
and the processed file (ffmpeg succeeded). -/
theorem handlerUploadVideo_files (cfg : apiConfig) (env : UploadEnv) :
    ((handlerUploadVideo cfg env).created = [] ∧ (handlerUploadVideo cfg env).removed = []) ∨
    ((handlerUploadVideo cfg env).created = [env.tempName] ∧
      (handlerUploadVideo cfg env).removed = [env.tempName]) ∨
    (env.ffmpeg = .failure true ∧
      (handlerUploadVideo cfg env).created = [env.tempName, env.tempName ++ ".processing"] ∧
      (handlerUploadVideo cfg env).removed = [env.tempName]) ∨
    (env.ffmpeg = .success ∧
      (handlerUploadVideo cfg env).created = [env.tempName, env.tempName ++ ".processing"] ∧
      (handlerUploadVideo cfg env).removed = [env.tempName ++ ".processing", env.tempName]) := by
  cases h1 : env.parseVideoIDOk with
  | false => exact Or.inl (by simp [handlerUploadVideo, h1])
  | true =>
  cases h2 : env.tokenOk with
  | false => exact Or.inl (by simp [handlerUploadVideo, h1, h2])
  | true =>
  cases h3 : env.jwtOk with
  | false => exact Or.inl (by simp [handlerUploadVideo, h1, h2, h3])
  | true =>
  cases h4 : env.getVideoOk with
  | false => exact Or.inl (by simp [handlerUploadVideo, h1, h2, h3, h4])
  | true =>
  by_cases h5 : env.video.userID = env.userID
  case neg => exact Or.inl (by simp [handlerUploadVideo, h1, h2, h3, h4, h5])
  cases h6 : env.formFileOk with
  | false => exact Or.inl (by simp [handlerUploadVideo, h1, h2, h3, h4, h5, h6])
  | true =>
  cases h7 : env.parseMediaTypeOk with
  | false => exact Or.inl (by simp [handlerUploadVideo, h1, h2, h3, h4, h5, h6, h7])
  | true =>
  by_cases h8 : env.mediaType = "video/mp4"
  case neg => exact Or.inl (by simp [handlerUploadVideo, h1, h2, h3, h4, h5, h6, h7, h8])
  cases h9 : env.createTempOk with
  | false => exact Or.inl (by simp [handlerUploadVideo, h1, h2, h3, h4, h5, h6, h7, h8, h9])
  | true =>
  cases h10 : env.copyOk with
  | false =>
    exact Or.inr (Or.inl (by simp [handlerUploadVideo, h1, h2, h3, h4, h5, h6, h7, h8, h9, h10]))
  | true =>
  cases h11 : env.seekOk with
  | false =>
    exact Or.inr (Or.inl
      (by simp [handlerUploadVideo, h1, h2, h3, h4, h5, h6, h7, h8, h9, h10, h11]))
  | true =>
  cases h12 : env.ffmpeg with
  | failure b =>
    cases b with
    | true =>
      refine Or.inr (Or.inr (Or.inl ⟨rfl, ?_⟩))
      constructor <;>
        simp [handlerUploadVideo, processVideoForFastStart,
          h1, h2, h3, h4, h5, h6, h7, h8, h9, h10, h11, h12]
    | false =>
      refine Or.inr (Or.inl ?_)
      constructor <;>
        simp [handlerUploadVideo, processVideoForFastStart,
          h1, h2, h3, h4, h5, h6, h7, h8, h9, h10, h11, h12]
  | success =>
    refine Or.inr (Or.inr (Or.inr ⟨rfl, ?_⟩))
    rcases ha : getVideoAspectRatio env.probe (env.tempName ++ ".processing") with pe | aspect <;>
      constructor <;>
      · simp [handlerUploadVideo, processVideoForFastStart,
          h1, h2, h3, h4, h5, h6, h7, h8, h9, h10, h11, h12, ha]
        try split_ifs <;> rfl

/-- C5 (amended): every file created during a run is removed exactly
once, except the transcoder's partial output file when the transcoder
fails: that file is never removed. -/
theorem c5_cleanup_amended (cfg : apiConfig) (env : UploadEnv) (f : String)
    (hf : f ∈ (handlerUploadVideo cfg env).created) :
    ((env.ffmpeg = .failure true ∧ f = env.tempName ++ ".processing") →
      (handlerUploadVideo cfg env).removed.count f = 0) ∧
    (¬ (env.ffmpeg = .failure true ∧ f = env.tempName ++ ".processing") →
      (handlerUploadVideo cfg env).removed.count f = 1) := by
  have hne := string_self_ne_append_processing env.tempName
  rcases handlerUploadVideo_files cfg env with ⟨hc, hr⟩ | ⟨hc, hr⟩ | ⟨hff, hc, hr⟩ | ⟨hff, hc, hr⟩
  · rw [hc] at hf
    cases hf
  · rw [hc] at hf
    rw [List.mem_singleton] at hf
    subst hf
    rw [hr]
    constructor
    · rintro ⟨-, hcond⟩
      exact absurd hcond hne
    · intro _
      simp [List.count_cons]
  · rw [hc] at hf
    rw [hr]
    rcases List.mem_cons.mp hf with h | h
    · subst h
      constructor
      · rintro ⟨-, hcond⟩
        exact absurd hcond hne
      · intro _
        simp [List.count_cons]
    · rw [List.mem_singleton] at h
      subst h
      constructor
      · intro _
        simp [List.count_cons, List.count_nil]
        exact fun heq => hne (by first | exact heq | exact heq.symm)
      · intro hcond
        exact absurd ⟨hff, rfl⟩ hcond
  · rw [hc] at hf
    rw [hr]
    have hcond : ¬ (env.ffmpeg = .failure true ∧ f = env.tempName ++ ".processing") := by
      rintro ⟨hbad, -⟩
      rw [hff] at hbad
      cases hbad
    refine ⟨fun h => absurd h hcond, fun _ => ?_⟩
    rcases List.mem_cons.mp hf with h | h
    · subst h
      simp [List.count_cons, List.count_nil]
      exact fun heq => hne (by first | exact heq | exact heq.symm)
    · rw [List.mem_singleton] at h
      subst h
      simp [List.count_cons, List.count_nil]
      exact fun heq => hne (by first | exact heq | exact heq.symm)

/-- C5 witness: the staged file of the all-success run is removed once. -/
theorem c5_cleanup_amended_witness :
    (envHappy.tempName ∈ (handlerUploadVideo cfgSample envHappy).created ∧
      ¬ (envHappy.ffmpeg = .failure true ∧
        envHappy.tempName = envHappy.tempName ++ ".processing")) ∧
    (handlerUploadVideo cfgSample envHappy).removed.count envHappy.tempName = 1 :=
  ⟨⟨by decide, by decide⟩,
    (c5_cleanup_amended cfgSample envHappy envHappy.tempName (by decide)).2 (by decide)⟩

/-- C5 (counterexample): when ffmpeg fails leaving a partial output
file, that file was created during the run but no `os.Remove` is ever
issued for it. -/
theorem c5_partial_output_not_removed :
    (envFFmpegFail.tempName ++ ".processing") ∈
      (handlerUploadVideo cfgSample envFFmpegFail).created ∧
    (envFFmpegFail.tempName ++ ".processing") ∉
      (handlerUploadVideo cfgSample envFFmpegFail).removed ∧
    (handlerUploadVideo cfgSample envFFmpegFail).removed.count
      (envFFmpegFail.tempName ++ ".processing") = 0 := by
  refine ⟨by decide, by decide, by decide⟩

end Tubely
